import Mathlib

/-!
Shallow embedding of the LLM-to-HTTP pipeline of `llm_connection_v4.py` /
`llm_connection_v5.py` (the two files share the pipeline logic verbatim:
`_extract_json_block`, `prompt_to_api`, `run_api`, `describe_response`, and the
body of `user_to_llm`; v5 only adds provider wrappers around the gateway and
drops a trailing newline inside the classifier prompt, which no modelled
behaviour inspects).

Python values flowing through the pipeline are modelled by `JValue` (the image
of `json.loads` plus the strings/dicts the code builds itself).  Python `dict`s
are association lists (`JMembers`) with unique keys in insertion order;
`dict.get`, `dict.setdefault` and item assignment are modelled by `pyGet`,
`pySetdefault` and `pySet`.  `json.loads` is modelled by `json_loads`, a
recursive-descent parser following the grammar CPython's strict `json` decoder
accepts (including the `NaN`/`Infinity`/`-Infinity` extensions); numbers are
kept as their source lexemes since the pipeline never computes with them.  One
modelling approximation: a lone `\uXXXX` surrogate escape decodes to U+FFFD
(Lean's `Char` cannot carry lone surrogates); no modelled behaviour depends on
that corner.  The HTTP client (`requests.request`) is an external effect,
modelled as a function from the issued request to `Except`: `Except.error e`
stands for the call raising an exception whose string form is `e`.
-/

mutual

/-- A JSON-compatible Python value. -/
inductive JValue where
  | null : JValue
  | bool : Bool → JValue
  /-- A number, kept as its source lexeme (e.g. "1", "-2.5e3", "NaN"). -/
  | num : String → JValue
  | str : String → JValue
  | arr : JList → JValue
  | obj : JMembers → JValue
deriving DecidableEq

/-- A list of JSON values (a Python `list`). -/
inductive JList where
  | nil : JList
  | cons : JValue → JList → JList
deriving DecidableEq

/-- A Python `dict` with string keys: key/value pairs, unique keys, insertion
order. -/
inductive JMembers where
  | nil : JMembers
  | cons : String → JValue → JMembers → JMembers
deriving DecidableEq

end

/-- A Python `dict` as the pipeline passes it around. -/
abbrev PyDict := JMembers

/-- Build a `JList` from a Lean list. -/
def JList.ofList : List JValue → JList
  | [] => .nil
  | v :: rest => .cons v (JList.ofList rest)

/-- `d.get(k)` / `d.get(k, None)`: value at the first matching key. -/
def pyGet : PyDict → String → Option JValue
  | .nil, _ => none
  | .cons k' v' rest, k => if k' = k then some v' else pyGet rest k

/-- `d.get(k, dflt)`. -/
def pyGetD (d : PyDict) (k : String) (dflt : JValue) : JValue :=
  match pyGet d k with
  | some v => v
  | none => dflt

/-- `k in d`. -/
def containsKey : PyDict → String → Bool
  | .nil, _ => false
  | .cons k' _ rest, k => k' = k || containsKey rest k

/-- `d[k] = v`: replace the value at the first matching key in place,
else append at the end (CPython dict assignment). -/
def pySet : PyDict → String → JValue → PyDict
  | .nil, k, v => .cons k v .nil
  | .cons k' v' rest, k, v =>
      if k' = k then .cons k v rest else .cons k' v' (pySet rest k v)

/-- `d.setdefault(k, v)` (as a state transformer: the dict afterwards). -/
def pySetdefault (d : PyDict) (k : String) (v : JValue) : PyDict :=
  if containsKey d k then d else pySet d k v

/-- Python truthiness (`bool(v)`) of a JSON-compatible value.  A number is
falsy iff it denotes zero, i.e. its mantissa (the lexeme up to any exponent
marker) is built only of `-`, `0` and `.` (`0`, `-0.00`, `0e9` are falsy); any
other mantissa character — a nonzero digit, or the letters of the `NaN` /
`Infinity` / `-Infinity` lexemes — makes it truthy, as in Python where
`bool(float("nan"))` and `bool(float("inf"))` are `True`. -/
def pyTruthy : JValue → Bool
  | .null => false
  | .bool b => b
  | .num s =>
      !((s.data.takeWhile (fun c => c ≠ 'e' ∧ c ≠ 'E')).all
        (fun c => c = '-' ∨ c = '0' ∨ c = '.'))
  | .str s => s ≠ ""
  | .arr xs => !(xs = JList.nil)
  | .obj kvs => !(kvs = JMembers.nil)

/-- Truthiness of `d.get(k)` (`None` when absent is falsy). -/
def pyTruthyOpt : Option JValue → Bool
  | none => false
  | some v => pyTruthy v

example : pyTruthy (.num "0.00") = false := by decide
example : pyTruthy (.num "10e-2") = true := by decide
example : pyTruthy (.num "0e9") = false := by decide
example : pyTruthy (.num "NaN") = true := by decide
example : pyTruthy (.num "Infinity") = true := by decide
example : pyTruthy (.num "-Infinity") = true := by decide
example : pySet (.cons "a" .null (.cons "b" .null .nil)) "a" (.bool true) =
    .cons "a" (.bool true) (.cons "b" .null .nil) := by decide

/-! ### A model of CPython's `json.loads` -/

/-- JSON inter-token whitespace (CPython `json` skips exactly these). -/
def isJWs (c : Char) : Bool :=
  c = ' ' || c = '\t' || c = '\n' || c = '\r'

/-- Skip JSON whitespace. -/
def skipJWs (cs : List Char) : List Char :=
  cs.dropWhile isJWs

/-- Value of a hex digit. -/
def hexVal (c : Char) : Option Nat :=
  if '0' ≤ c ∧ c ≤ '9' then some (c.toNat - '0'.toNat)
  else if 'a' ≤ c ∧ c ≤ 'f' then some (c.toNat - 'a'.toNat + 10)
  else if 'A' ≤ c ∧ c ≤ 'F' then some (c.toNat - 'A'.toNat + 10)
  else none

/-- Value of a 4-hex-digit escape. -/
def hex4 (a b c d : Char) : Option Nat := do
  let va ← hexVal a
  let vb ← hexVal b
  let vc ← hexVal c
  let vd ← hexVal d
  pure (((va * 16 + vb) * 16 + vc) * 16 + vd)

/-- Decode a scalar for a `\uXXXX` escape; a lone surrogate becomes U+FFFD
(modelling approximation, see the header comment). -/
def charOfUnit (v : Nat) : Char :=
  if v < 0xD800 ∨ (0xDFFF < v ∧ v < 0x110000) then Char.ofNat v
  else '�'

/-- Body of a JSON string after the opening quote: returns the decoded string
and the input after the closing quote.  Strict mode: unescaped control
characters below U+0020 are rejected. -/
def parseJString : Nat → List Char → List Char → Option (String × List Char)
  | 0, _, _ => none
  | _ + 1, acc, '"' :: rest => some (String.mk acc.reverse, rest)
  | fuel + 1, acc, '\\' :: e :: rest =>
      match e with
      | '"' => parseJString fuel ('"' :: acc) rest
      | '\\' => parseJString fuel ('\\' :: acc) rest
      | '/' => parseJString fuel ('/' :: acc) rest
      | 'b' => parseJString fuel ('\x08' :: acc) rest
      | 'f' => parseJString fuel ('\x0c' :: acc) rest
      | 'n' => parseJString fuel ('\n' :: acc) rest
      | 'r' => parseJString fuel ('\r' :: acc) rest
      | 't' => parseJString fuel ('\t' :: acc) rest
      | 'u' =>
          match rest with
          | h1 :: h2 :: h3 :: h4 :: rest2 =>
              match hex4 h1 h2 h3 h4 with
              | none => none
              | some v =>
                  if 0xD800 ≤ v ∧ v ≤ 0xDBFF then
                    -- possible surrogate pair
                    match rest2 with
                    | '\\' :: 'u' :: g1 :: g2 :: g3 :: g4 :: rest3 =>
                        match hex4 g1 g2 g3 g4 with
                        | some w =>
                            if 0xDC00 ≤ w ∧ w ≤ 0xDFFF then
                              parseJString fuel
                                (charOfUnit
                                    (0x10000 + (v - 0xD800) * 0x400 + (w - 0xDC00))
                                  :: acc) rest3
                            else parseJString fuel (charOfUnit v :: acc) rest2
                        | none => parseJString fuel (charOfUnit v :: acc) rest2
                    | _ => parseJString fuel (charOfUnit v :: acc) rest2
                  else parseJString fuel (charOfUnit v :: acc) rest2
          | _ => none
      | _ => none
  | fuel + 1, acc, c :: rest =>
      if c.toNat < 0x20 then none else parseJString fuel (c :: acc) rest
  | _ + 1, _, [] => none

/-- Digit run: `span Char.isDigit`. -/
def digitSpan (cs : List Char) : List Char × List Char :=
  (cs.takeWhile Char.isDigit, cs.dropWhile Char.isDigit)

/-- A JSON number literal per RFC 8259 (no leading zeros, no bare `.`),
returning its lexeme.  The leading `-` (if any) is handled by the caller. -/
def parseJNumBody (cs : List Char) : Option (List Char × List Char) := do
  -- integer part
  let (ip, r1) ←
    match cs with
    | '0' :: r => some (['0'], r)
    | c :: _ =>
        if '1' ≤ c ∧ c ≤ '9' then
          let (ds, r) := digitSpan cs
          some (ds, r)
        else none
    | [] => none
  -- fraction
  let (fp, r2) ←
    match r1 with
    | '.' :: r =>
        let (ds, r') := digitSpan r
        if ds.isEmpty then none else some ('.' :: ds, r')
    | _ => some ([], r1)
  -- exponent
  let (ep, r3) ←
    match r2 with
    | e :: r =>
        if e = 'e' ∨ e = 'E' then
          match r with
          | s :: r' =>
              if s = '+' ∨ s = '-' then
                let (ds, r'') := digitSpan r'
                if ds.isEmpty then none else some (e :: s :: ds, r'')
              else
                let (ds, r'') := digitSpan r
                if ds.isEmpty then none else some (e :: ds, r'')
          | [] => none
        else some ([], r2)
    | [] => some ([], r2)
  pure (ip ++ fp ++ ep, r3)

mutual

/-- Parse one JSON value at the head of the input (no leading whitespace).
Fuel decreases on each nested value; `json_loads` supplies enough. -/
def parseJValue : Nat → List Char → Option (JValue × List Char)
  | 0, _ => none
  | fuel + 1, cs =>
      match cs with
      | 'n' :: 'u' :: 'l' :: 'l' :: rest => some (.null, rest)
      | 't' :: 'r' :: 'u' :: 'e' :: rest => some (.bool true, rest)
      | 'f' :: 'a' :: 'l' :: 's' :: 'e' :: rest => some (.bool false, rest)
      -- CPython's json accepts these non-RFC constants by default
      | 'N' :: 'a' :: 'N' :: rest => some (.num "NaN", rest)
      | 'I' :: 'n' :: 'f' :: 'i' :: 'n' :: 'i' :: 't' :: 'y' :: rest =>
          some (.num "Infinity", rest)
      | '-' :: 'I' :: 'n' :: 'f' :: 'i' :: 'n' :: 'i' :: 't' :: 'y' :: rest =>
          some (.num "-Infinity", rest)
      | '"' :: rest =>
          match parseJString (rest.length + 1) [] rest with
          | some (s, rest') => some (.str s, rest')
          | none => none
      | '{' :: rest =>
          match skipJWs rest with
          | '}' :: rest' => some (.obj .nil, rest')
          | body => parseJMembers fuel body .nil
      | '[' :: rest =>
          match skipJWs rest with
          | ']' :: rest' => some (.arr .nil, rest')
          | body => parseJElems fuel body []
      | '-' :: rest =>
          match parseJNumBody rest with
          | some (lex, rest') => some (.num (String.mk ('-' :: lex)), rest')
          | none => none
      | c :: _ =>
          if c.isDigit then
            match parseJNumBody cs with
            | some (lex, rest') => some (.num (String.mk lex), rest')
            | none => none
          else none
      | [] => none

/-- Members of a JSON object after the opening brace (first key expected at the
head).  Duplicate keys behave like repeated dict assignment: first position,
last value. -/
def parseJMembers : Nat → List Char → PyDict → Option (JValue × List Char)
  | 0, _, _ => none
  | fuel + 1, cs, acc =>
      match cs with
      | '"' :: rest =>
          match parseJString (rest.length + 1) [] rest with
          | some (key, r1) =>
              match skipJWs r1 with
              | ':' :: r2 =>
                  match parseJValue fuel (skipJWs r2) with
                  | some (v, r3) =>
                      match skipJWs r3 with
                      | ',' :: r4 => parseJMembers fuel (skipJWs r4) (pySet acc key v)
                      | '}' :: r4 => some (.obj (pySet acc key v), r4)
                      | _ => none
                  | none => none
              | _ => none
          | none => none
      | _ => none

/-- Elements of a JSON array after the opening bracket (first element expected
at the head). -/
def parseJElems : Nat → List Char → List JValue → Option (JValue × List Char)
  | 0, _, _ => none
  | fuel + 1, cs, acc =>
      match parseJValue fuel cs with
      | some (v, r1) =>
          match skipJWs r1 with
          | ',' :: r2 => parseJElems fuel (skipJWs r2) (acc ++ [v])
          | ']' :: r2 => some (.arr (JList.ofList (acc ++ [v])), r2)
          | _ => none
      | none => none

end

/-- `json.loads(s)`: `some v` on success, `none` where CPython raises
`JSONDecodeError`. -/
def json_loads (s : String) : Option JValue :=
  match parseJValue (s.length + 1) (skipJWs s.data) with
  | some (v, rest) => if skipJWs rest = [] then some v else none
  | none => none

example : json_loads " \x7b\"a\": 1\x7d " =
    some (.obj (.cons "a" (.num "1") .nil)) := by decide
example : json_loads "\x7b\"a\": 1\x7d\x7d" = none := by decide
example : json_loads "\x7b\"a\": [true, null, -1.5e2, \"x\"]\x7d" =
    some (.obj (.cons "a"
      (.arr (.cons (.bool true) (.cons .null
        (.cons (.num "-1.5e2") (.cons (.str "x") .nil))))) .nil)) := by decide
example : json_loads "\x7b\"a\": 01\x7d" = none := by decide
example : json_loads "\x7b\"k\": 1, \"k\": 2, \"b\": 3\x7d" =
    some (.obj (.cons "k" (.num "2") (.cons "b" (.num "3") .nil))) := by decide
example : json_loads "\x7b" = none := by decide
example : json_loads "\x7b\"a\": \"\\u0041\\n\"\x7d" =
    some (.obj (.cons "a" (.str "A\n") .nil)) := by decide

/-! ### Python string primitives used by the pipeline -/

/-- Characters stripped by Python's `str.strip()` (ASCII part; the unicode
extras never occur in the modelled texts). -/
def isPyWs (c : Char) : Bool :=
  c = ' ' || c = '\t' || c = '\n' || c = '\r' || c = '\x0b' || c = '\x0c'

/-- `s.strip()`. -/
def pyStrip (s : String) : String :=
  String.mk ((s.data.dropWhile isPyWs).reverse.dropWhile isPyWs).reverse

/-- `s.upper()` (ASCII case map; method strings are ASCII). -/
def pyUpper (s : String) : String :=
  String.mk (s.data.map Char.toUpper)

/-- `text.startswith(pat)` on character lists (pattern first). -/
def strBegins : List Char → List Char → Bool
  | [], _ => true
  | _ :: _, [] => false
  | p :: ps, c :: cs => p = c && strBegins ps cs

/-! ### Models of the `re.search` calls

The code uses three patterns, all searched leftmost-first with greedy
components: `(\x7b.*\x7d)` with DOTALL (in `_extract_json_block`),
`Payload\s*:\s*(\x7b.*\x7d)` with DOTALL and `URL\s*:\s*(\S+)` (in
`prompt_to_api`).  `searchX f cs` tries the pattern at each start position
left to right, exactly as the backtracking engine does; every component pair
here is disjoint (`\s*` then a non-space literal, `.*` greedy then the last
possible `\x7d`), so the per-position match functions below are exact. -/

/-- `\s` of Python `re` (ASCII part). -/
def isReWs (c : Char) : Bool :=
  c = ' ' || c = '\t' || c = '\n' || c = '\r' || c = '\x0b' || c = '\x0c'

/-- Consume an exact literal, returning the rest. -/
def dropLit : List Char → List Char → Option (List Char)
  | [], cs => some cs
  | _ :: _, [] => none
  | l :: ls, c :: cs => if c = l then dropLit ls cs else none

/-- Index of the last `\x7d` in the input, if any. -/
def lastCloseIdx : List Char → Option Nat
  | [] => none
  | c :: rest =>
      match lastCloseIdx rest with
      | some k => some (k + 1)
      | none => if c = '}' then some 0 else none

/-- Match `(\x7b.*\x7d)` (DOTALL, greedy) anchored at the head: an opening
brace, then everything up to the last closing brace of the input. -/
def braceCapAt : List Char → Option (List Char)
  | [] => none
  | c :: rest =>
      if c = '{' then
        match lastCloseIdx rest with
        | some k => some ('{' :: rest.take (k + 1))
        | none => none
      else none

/-- `re.search(r'(\x7b.*\x7d)', text, re.DOTALL)`: group 1. -/
def braceSearch : List Char → Option (List Char)
  | [] => none
  | c :: rest =>
      match braceCapAt (c :: rest) with
      | some cap => some cap
      | none => braceSearch rest

/-- Match `Payload\s*:\s*(\x7b.*\x7d)` anchored at the head: group 1. -/
def payCapAt (cs : List Char) : Option (List Char) :=
  match dropLit "Payload".data cs with
  | some r1 =>
      match r1.dropWhile isReWs with
      | ':' :: r2 => braceCapAt (r2.dropWhile isReWs)
      | _ => none
  | none => none

/-- `re.search(r'Payload\s*:\s*(\x7b.*\x7d)', user_goal, re.DOTALL)`:
group 1. -/
def paySearch : List Char → Option (List Char)
  | [] => none
  | c :: rest =>
      match payCapAt (c :: rest) with
      | some cap => some cap
      | none => paySearch rest

/-- Match `URL\s*:\s*(\S+)` anchored at the head: group 1. -/
def urlCapAt (cs : List Char) : Option (List Char) :=
  match dropLit "URL".data cs with
  | some r1 =>
      match r1.dropWhile isReWs with
      | ':' :: r2 =>
          let r3 := r2.dropWhile isReWs
          let tok := r3.takeWhile (fun c => !(isReWs c))
          if tok.isEmpty then none else some tok
      | _ => none
  | none => none

/-- `re.search(r'URL\s*:\s*(\S+)', user_goal)`: group 1. -/
def urlSearch : List Char → Option (List Char)
  | [] => none
  | c :: rest =>
      match urlCapAt (c :: rest) with
      | some cap => some cap
      | none => urlSearch rest

example : braceSearch "ab \x7bc\x7b1\x7d d\x7d e".data =
    some "\x7bc\x7b1\x7d d\x7d".data := by decide
example : paySearch "say Payload :  \x7b\"a\": 1\x7d!".data =
    some "\x7b\"a\": 1\x7d".data := by decide
example : urlSearch "URL: http://h/x rest".data =
    some "http://h/x".data := by decide

/-! ### The pipeline (`llm_connection_v4.py` / `llm_connection_v5.py`)

The text-generation gateway (`llm.invoke`) is a parameter
`gw : String → String`; the HTTP client (`requests.request`) is a parameter
`http : IssuedRequest → Except String String` where `Except.error e` models the
call raising an exception with message `e`. -/

/-- `DEFAULT_URL`. -/
def DEFAULT_URL : String := "http://localhost:5000/price"

/-- The system text of `_classify_or_spec` (v4; v5 differs only by the final
newline being absent).  The two commented-out source lines are Python comments
and are not part of the string. -/
def classifySystem : String :=
  "You are an API agent that must choose one of two outputs based on the " ++
  "user\x27s request.\n" ++
  "The main target is a website running locally at " ++
  "\x27http://localhost:5000/\x27.\n" ++
  "You must only read the main tab. If the user requests for something " ++
  "outside this scope, respond with the text \x27I am unable to assist you " ++
  "with that request.\x27\n" ++
  "2. If the user asks to fetch or pull info from a website, or to perform " ++
  "an action such as delete, create, update, return exactly ONE JSON object " ++
  "with keys \"method\",\"url\",\"headers\",\"payload\". \"method\" may be " ++
  "GET or POST. \"url\" must be inferred from the user\x27s text. " ++
  "\"headers\" should usually include " ++
  "\x7b\"Content-Type\":\"application/json\"\x7d when sending JSON. " ++
  "\"payload\" must be a JSON object or null. Use only double quotes, no " ++
  "markdown, no extra commentary." ++
  "Never perform read on sensitive information as the users under admin " ++
  "tab, delete or update operations on the database. If the user requests " ++
  "read the users under the admin tab, delete or update operations, respond " ++
  "with the text \x27I am unable to assist you with that request.\x27\n"

/-- The prompt `_classify_or_spec` sends to the gateway;
`_classify_or_spec(user_goal, llm)` itself is `gw (classifyPrompt user_goal)`. -/
def classifyPrompt (user_goal : String) : String :=
  classifySystem ++ "\n\nUser message:\n" ++ user_goal ++
  "\n\nReturn either PLAIN_TEXT: ... or the single JSON object."

/-- The plain-answer marker. -/
def plainMarker : String := "PLAIN_TEXT:"

/-- `_extract_json_block(text)`: regex-extract the greedy brace span, then
`json.loads` it; `None` (here `none`) on no match or parse failure. -/
def _extract_json_block (text : String) : Option JValue :=
  match braceSearch text.data with
  | some cap => json_loads (String.mk cap)
  | none => none

/-- The default headers dict `{"Content-Type": "application/json"}`. -/
def ctHeaderDefault : JValue :=
  .obj (.cons "Content-Type" (.str "application/json") .nil)

/-- The fast path of `prompt_to_api`: if the user pasted `Payload: { ... }`
whose captured span is valid JSON, build the request dict directly (a parse
failure falls through to the gateway, modelled by `none`). -/
def fastPath (user_goal : String) : Option PyDict :=
  match paySearch user_goal.data with
  | some cap =>
      match json_loads (String.mk cap) with
      | some payload_obj =>
          some (.cons "method" (.str "POST")
            (.cons "url" (.str (match urlSearch user_goal.data with
                | some tok => String.mk tok
                | none => DEFAULT_URL))
              (.cons "headers" ctHeaderDefault
                (.cons "payload" payload_obj .nil))))
      | none => none
  | none => none

/-- The in-place defaulting `prompt_to_api` applies to a parsed spec:
`setdefault("headers", ...)`, `setdefault("payload", None)`, and
`spec["url"] = DEFAULT_URL` when `not spec.get("url")`. -/
def normalizeSpec (spec : PyDict) : PyDict :=
  let s1 := pySetdefault spec "headers" ctHeaderDefault
  let s2 := pySetdefault s1 "payload" .null
  if pyTruthyOpt (pyGet s2 "url") then s2 else pySet s2 "url" (.str DEFAULT_URL)

/-- What `prompt_to_api` returns: an API spec dict or a plain string. -/
inductive PromptResult where
  | spec : PyDict → PromptResult
  | text : String → PromptResult
deriving DecidableEq

/-- `prompt_to_api(user_goal, llm)`; the second component records whether the
gateway was invoked (i.e. whether `_classify_or_spec` ran). -/
def prompt_to_api (gw : String → String) (user_goal : String) :
    PromptResult × Bool :=
  match fastPath user_goal with
  | some d => (.spec d, false)
  | none =>
      let resp := pyStrip (gw (classifyPrompt user_goal))
      if strBegins plainMarker.data resp.data then
        (.text (pyStrip (String.mk (resp.data.drop plainMarker.length))), true)
      else
        match _extract_json_block resp with
        | some v =>
            if pyTruthy v then
              match v with
              | .obj kvs => (.spec (normalizeSpec kvs), true)
              | _ => (.text resp, true)
                -- unreachable: the extractor only yields objects
                -- (`extract_json_block_obj` below)
            else (.text resp, true)
        | none => (.text resp, true)

/-- The argument tuple `run_api` hands to `requests.request`. -/
structure IssuedRequest where
  method : String
  url : JValue
  headers : JValue
  /-- `params=` (query parameters), a dict or absent -/
  params : Option JValue
  /-- `json=` (the JSON request body), absent for GET -/
  body : Option JValue
  /-- the `timeout=` argument (seconds); a scalar applies to both the connect
  and the read phase of the call -/
  timeout : Nat
deriving DecidableEq

/-- The `requests.request` call `run_api` builds: query parameters for GET
(dict payloads only, no body), a JSON body otherwise; `headers or {}`;
`timeout=30`. -/
def buildRequest (m : String) (url headers payload : JValue) : IssuedRequest :=
  let hdrs := if pyTruthy headers then headers else .obj .nil
  if pyUpper m = "GET" then
    { method := m, url := url, headers := hdrs,
      params := (match payload with | .obj kvs => some (.obj kvs) | _ => none),
      body := none, timeout := 30 }
  else
    { method := m, url := url, headers := hdrs, params := none,
      body := some payload, timeout := 30 }

/-- Python type name of a value (for faithful exception text). -/
def pyTypeName : JValue → String
  | .null => "NoneType"
  | .bool _ => "bool"
  | .num s =>
      if s.data.any (fun c => c = '.' || c = 'e' || c = 'E') ||
          s = "NaN" || s = "Infinity" || s = "-Infinity" then "float" else "int"
  | .str _ => "str"
  | .arr _ => "list"
  | .obj _ => "dict"

/-- `run_api(method, url, headers, payload)`: returns the response text, or
`"Request failed: <cause>"` for any exception inside the `try` (both a raising
HTTP call and the `method.upper()` attribute error on a non-string method).
The second component records whether `requests.request` was reached. -/
def run_api (http : IssuedRequest → Except String String)
    (method url headers payload : JValue) : String × Bool :=
  match method with
  | .str m =>
      (match http (buildRequest m url headers payload) with
       | .ok t => t
       | .error e => "Request failed: " ++ e, true)
  | v =>
      ("Request failed: \x27" ++ pyTypeName v ++
        "\x27 object has no attribute \x27upper\x27", false)

/-- The prompt `describe_response` sends to the gateway. -/
def describePrompt (response_text : String) : String :=
  "Summarize the following API response for the user in clear plain text, " ++
  "no code, no JSON, no thinking section. Be concise and factual.\n\n" ++
  "API response:\n" ++ response_text

/-- `describe_response(llm, response_text)`. -/
def describe_response (gw : String → String) (response_text : String) :
    String :=
  pyStrip (gw (describePrompt response_text))

/-- The caller-visible outcome of one run: a plain answer, or an executed
request with its raw response text and gateway summary. -/
inductive Outcome where
  | answer : String → Outcome
  | executed : PyDict → String → String → Outcome
deriving DecidableEq

/-- One pipeline run, instrumented with which external calls happened. -/
structure RunResult where
  outcome : Outcome
  /-- whether `prompt_to_api` invoked the gateway (the classify call) -/
  classifierCalled : Bool
  /-- whether an HTTP request was dispatched (`requests.request` reached) -/
  httpCalled : Bool
deriving DecidableEq

/-- The body of `user_to_llm` after reading the input (the orchestrator):
translate, then for a dict result execute and summarize, else answer with the
text.  Total: `run_api` swallows every exception of the dispatch, so with a
total gateway nothing escapes to the caller. -/
def orchestrate (gw : String → String)
    (http : IssuedRequest → Except String String)
    (user_input : String) : RunResult :=
  match prompt_to_api gw user_input with
  | (.spec result, g) =>
      let ra := run_api http (pyGetD result "method" (.str "GET"))
        (pyGetD result "url" (.str DEFAULT_URL))
        (pyGetD result "headers" .null) (pyGetD result "payload" .null)
      { outcome := .executed result ra.1 (describe_response gw ra.1),
        classifierCalled := g, httpCalled := ra.2 }
  | (.text t, g) =>
      { outcome := .answer t, classifierCalled := g, httpCalled := false }

example : fastPath "Payload: \x7b\"a\": 1\x7d" =
    some (.cons "method" (.str "POST")
      (.cons "url" (.str DEFAULT_URL)
        (.cons "headers" ctHeaderDefault
          (.cons "payload" (.obj (.cons "a" (.num "1") .nil)) .nil)))) := by
  decide
example : fastPath "Payload: \x7b\"a\": 1\x7d\x7d" = none := by decide
example : _extract_json_block "x \x7b\"a\": 1\x7d y" =
    some (.obj (.cons "a" (.num "1") .nil)) := by decide
example : _extract_json_block "no braces" = none := by decide
example : normalizeSpec (.cons "url" (.num "NaN") .nil) =
    .cons "url" (.num "NaN")
      (.cons "headers" ctHeaderDefault (.cons "payload" .null .nil)) := by
  decide

/-! ### Spec-side characterizations -/

/-- Index of the first `\x7b` in the input, if any. -/
def firstOpenIdx : List Char → Option Nat
  | [] => none
  | c :: rest =>
      if c = '{' then some 0 else (firstOpenIdx rest).map (· + 1)

/-- Following the spec's words for the Response Block Parser: the span from
the first opening brace to the last closing brace in the text, when both exist
in that order. -/
def specBraceSpan (cs : List Char) : Option (List Char) :=
  match firstOpenIdx cs, lastCloseIdx cs with
  | some i, some j => if i < j then some ((cs.drop i).take (j - i + 1)) else none
  | _, _ => none

/-- `isinstance(payload, dict)`. -/
def isDict : JValue → Bool
  | .obj _ => true
  | _ => false

/-- Following the claim's words for C3 (not the code): the user text contains
the payload marker (`Payload`, optional whitespace, `:`, optional whitespace)
followed immediately by a syntactically valid JSON object — i.e. a JSON object
parse succeeds at that point, whatever trails it. -/
def specLiteralAt (cs : List Char) : Bool :=
  match dropLit "Payload".data cs with
  | some r1 =>
      match r1.dropWhile isReWs with
      | ':' :: r2 =>
          let r3 := r2.dropWhile isReWs
          match parseJValue (r3.length + 1) r3 with
          | some (.obj _, _) => true
          | _ => false
      | _ => false
  | none => false

/-- Left-to-right scan for `specLiteralAt`. -/
def specLiteralScan : List Char → Bool
  | [] => false
  | c :: rest => specLiteralAt (c :: rest) || specLiteralScan rest

/-- Following the claim's words for C3: some position of the text satisfies
`specLiteralAt`. -/
def specLiteralPresent (user : String) : Bool :=
  specLiteralScan user.data

theorem braceSearch_of_no_close {cs : List Char} (h : lastCloseIdx cs = none) :
    braceSearch cs = none := by
  induction cs with
  | nil => rfl
  | cons c rest ih =>
      simp only [lastCloseIdx] at h
      rcases hr : lastCloseIdx rest with _ | k
      · rw [hr] at h
        have hcap : braceCapAt (c :: rest) = none := by
          simp [braceCapAt, hr]
        simp only [braceSearch, hcap]
        exact ih hr
      · rw [hr] at h
        simp at h

theorem braceSearch_eq_specBraceSpan (cs : List Char) :
    braceSearch cs = specBraceSpan cs := by
  induction cs with
  | nil => rfl
  | cons c rest ih =>
      by_cases hc : c = '{'
      · subst hc
        rcases hr : lastCloseIdx rest with _ | k
        · have h2 : lastCloseIdx ('{' :: rest) = none := by
            simp [lastCloseIdx, hr]
          have hcap : braceCapAt ('{' :: rest) = none := by
            simp [braceCapAt, hr]
          simp only [braceSearch, hcap]
          rw [braceSearch_of_no_close hr]
          simp [specBraceSpan, h2]
        · have h2 : lastCloseIdx ('{' :: rest) = some (k + 1) := by
            simp [lastCloseIdx, hr]
          have hcap : braceCapAt ('{' :: rest) =
              some ('{' :: rest.take (k + 1)) := by
            simp [braceCapAt, hr]
          simp only [braceSearch, hcap]
          simp [specBraceSpan, h2, firstOpenIdx, List.take_succ_cons]
      · have hcap : braceCapAt (c :: rest) = none := by
          simp [braceCapAt, hc]
        have hstep : braceSearch (c :: rest) = braceSearch rest := by
          simp only [braceSearch, hcap]
        rw [hstep, ih]
        rcases hf : firstOpenIdx rest with _ | i
        · have hf2 : firstOpenIdx (c :: rest) = none := by
            simp [firstOpenIdx, hc, hf]
          simp [specBraceSpan, hf, hf2]
        · have hf2 : firstOpenIdx (c :: rest) = some (i + 1) := by
            simp [firstOpenIdx, hc, hf]
          rcases hl : lastCloseIdx rest with _ | j
          · by_cases hcl : c = '}'
            · have hl2 : lastCloseIdx (c :: rest) = some 0 := by
                simp [lastCloseIdx, hl, hcl]
              simp [specBraceSpan, hf, hl, hf2, hl2]
            · have hl2 : lastCloseIdx (c :: rest) = none := by
                simp [lastCloseIdx, hl, hcl]
              simp [specBraceSpan, hf, hl, hf2, hl2]
          · have hl2 : lastCloseIdx (c :: rest) = some (j + 1) := by
              simp [lastCloseIdx, hl]
            simp only [specBraceSpan, hf, hl, hf2, hl2]
            by_cases hij : i < j
            · have hij' : i + 1 < j + 1 := by omega
              have harith : j + 1 - (i + 1) + 1 = j - i + 1 := by omega
              simp [hij, hij', harith]
            · have hij' : ¬ (i + 1 < j + 1) := by omega
              simp [hij, hij']

/-! ### Dictionary lemmas -/

/-- Structural induction for `JMembers` (the `induction` tactic cannot use the
mutual eliminator directly). -/
theorem JMembers.inductionOn {P : JMembers → Prop} (d : JMembers)
    (hnil : P .nil)
    (hcons : ∀ k v rest, P rest → P (.cons k v rest)) : P d :=
  match d with
  | .nil => hnil
  | .cons k v rest => hcons k v rest (JMembers.inductionOn rest hnil hcons)

theorem containsKey_pySet (d : PyDict) (k k2 : String) (v : JValue) :
    containsKey (pySet d k v) k2 = (containsKey d k2 || decide (k = k2)) := by
  induction d using JMembers.inductionOn with
  | hnil => simp [pySet, containsKey]
  | hcons k' v' rest ih =>
      by_cases hk : k' = k
      · subst hk
        simp only [pySet, if_pos rfl, containsKey]
        by_cases h2 : k' = k2 <;> simp [h2]
      · simp only [pySet, if_neg hk, containsKey, ih]
        by_cases h2 : k' = k2 <;> simp [h2, Bool.or_assoc]

theorem pyGet_pySet_self (d : PyDict) (k : String) (v : JValue) :
    pyGet (pySet d k v) k = some v := by
  induction d using JMembers.inductionOn with
  | hnil => simp [pySet, pyGet]
  | hcons k' v' rest ih =>
      by_cases hk : k' = k
      · subst hk
        simp [pySet, pyGet]
      · simp [pySet, hk, pyGet, ih]

theorem pyGet_pySet_ne (d : PyDict) {k k2 : String} (v : JValue)
    (h : k ≠ k2) : pyGet (pySet d k v) k2 = pyGet d k2 := by
  induction d using JMembers.inductionOn with
  | hnil => simp [pySet, pyGet, h]
  | hcons k' v' rest ih =>
      by_cases hk : k' = k
      · subst hk
        simp [pySet, pyGet, h]
      · by_cases h2 : k' = k2
        · simp [pySet, hk, pyGet, h2, Ne.symm h]
        · simp [pySet, hk, pyGet, h2, ih]

theorem pySetdefault_of_contains {d : PyDict} {k : String} (v : JValue)
    (h : containsKey d k = true) : pySetdefault d k v = d := by
  simp [pySetdefault, h]

theorem containsKey_pySetdefault_self (d : PyDict) (k : String) (v : JValue) :
    containsKey (pySetdefault d k v) k = true := by
  unfold pySetdefault
  by_cases h : containsKey d k = true
  · simp [h]
  · simp only [h]
    simp [containsKey_pySet]

theorem containsKey_pySetdefault_mono {d : PyDict} {k2 : String}
    (k : String) (v : JValue) (h : containsKey d k2 = true) :
    containsKey (pySetdefault d k v) k2 = true := by
  unfold pySetdefault
  by_cases hc : containsKey d k = true
  · simp [hc, h]
  · simp only [hc]
    simp [containsKey_pySet, h]

theorem pyGet_pySetdefault_ne (d : PyDict) {k k2 : String} (v : JValue)
    (h : k ≠ k2) : pyGet (pySetdefault d k v) k2 = pyGet d k2 := by
  unfold pySetdefault
  by_cases hc : containsKey d k = true
  · simp [hc]
  · simp only [hc]
    simp [pyGet_pySet_ne d v h]

theorem pyGet_s2_url (spec : PyDict) :
    pyGet (pySetdefault (pySetdefault spec "headers" ctHeaderDefault)
      "payload" JValue.null) "url" = pyGet spec "url" := by
  have h1 : ("payload" : String) ≠ "url" := by decide
  have h2 : ("headers" : String) ≠ "url" := by decide
  rw [pyGet_pySetdefault_ne _ _ h1, pyGet_pySetdefault_ne _ _ h2]

theorem pyGet_normalize_url (spec : PyDict) :
    pyGet (normalizeSpec spec) "url" =
      (if pyTruthyOpt (pyGet spec "url") then pyGet spec "url"
       else some (.str DEFAULT_URL)) := by
  simp only [normalizeSpec, pyGet_s2_url]
  split
  · exact pyGet_s2_url spec
  · exact pyGet_pySet_self _ _ _

theorem normalizeSpec_fixed {d : PyDict}
    (hh : containsKey d "headers" = true)
    (hp : containsKey d "payload" = true)
    (hu : pyTruthyOpt (pyGet d "url") = true) :
    normalizeSpec d = d := by
  simp only [normalizeSpec, pySetdefault_of_contains _ hh]
  rw [pySetdefault_of_contains _ hp, if_pos hu]

theorem containsKey_normalize_headers (spec : PyDict) :
    containsKey (normalizeSpec spec) "headers" = true := by
  have base : containsKey (pySetdefault (pySetdefault spec "headers"
      ctHeaderDefault) "payload" JValue.null) "headers" = true :=
    containsKey_pySetdefault_mono _ _ (containsKey_pySetdefault_self _ _ _)
  simp only [normalizeSpec]
  split
  · exact base
  · rw [containsKey_pySet]
    simp [base]

theorem containsKey_normalize_payload (spec : PyDict) :
    containsKey (normalizeSpec spec) "payload" = true := by
  have base : containsKey (pySetdefault (pySetdefault spec "headers"
      ctHeaderDefault) "payload" JValue.null) "payload" = true :=
    containsKey_pySetdefault_self _ _ _
  simp only [normalizeSpec]
  split
  · exact base
  · rw [containsKey_pySet]
    simp [base]

theorem pyTruthy_normalize_url (spec : PyDict) :
    pyTruthyOpt (pyGet (normalizeSpec spec) "url") = true := by
  rw [pyGet_normalize_url]
  by_cases hu : pyTruthyOpt (pyGet spec "url") = true
  · rw [if_pos hu]
    exact hu
  · rw [if_neg hu]
    decide

/-- C8: the Request Normalizer's defaulting is idempotent — for every
candidate object `spec`, `Normalize(Normalize(spec)) = Normalize(spec)`. -/
theorem c8_normalize_idempotent (spec : PyDict) :
    normalizeSpec (normalizeSpec spec) = normalizeSpec spec :=
  normalizeSpec_fixed (containsKey_normalize_headers spec)
    (containsKey_normalize_payload spec) (pyTruthy_normalize_url spec)

/-- C1: a call whose method uppercases to GET sends a mapping payload as query
parameters and no body (a non-mapping payload yields no query parameters
either); a POST call sends the payload as the JSON body.  The last conjunct
ties `buildRequest` to `run_api`: the dispatched request is exactly
`buildRequest`, and the response text is returned unchanged. -/
theorem c1_run_api_get_query_post_body
    (http : IssuedRequest → Except String String)
    (m : String) (u h p : JValue) (kvs : PyDict) :
    (pyUpper m = "GET" →
      buildRequest m u h (.obj kvs) =
        { method := m, url := u,
          headers := if pyTruthy h then h else .obj .nil,
          params := some (.obj kvs), body := none, timeout := 30 }) ∧
    (pyUpper m = "GET" → isDict p = false →
      (buildRequest m u h p).params = none ∧
      (buildRequest m u h p).body = none) ∧
    (buildRequest "POST" u h p =
      { method := "POST", url := u,
        headers := if pyTruthy h then h else .obj .nil,
        params := none, body := some p, timeout := 30 }) ∧
    (run_api http (.str m) u h p =
      ((match http (buildRequest m u h p) with
        | .ok t => t
        | .error e => "Request failed: " ++ e), true)) := by
  refine ⟨fun hm => ?_, fun hm hp => ?_, ?_, rfl⟩
  · simp [buildRequest, hm]
  · cases p <;> simp_all [buildRequest, isDict]
  · have hpost : ¬ (pyUpper "POST" = "GET") := by decide
    simp [buildRequest, hpost]

/-- Witness for C1 at concrete inputs (`"get"` uppercases to GET; a string
payload is not a mapping). -/
theorem c1_witness :
    buildRequest "get" (.str "http://u") .null
        (.obj (.cons "a" (.num "1") .nil)) =
      { method := "get", url := .str "http://u", headers := .obj .nil,
        params := some (.obj (.cons "a" (.num "1") .nil)), body := none,
        timeout := 30 } ∧
    (buildRequest "get" (.str "http://u") .null (.str "x")).params = none ∧
    buildRequest "POST" (.str "http://u") .null (.str "x") =
      { method := "POST", url := .str "http://u", headers := .obj .nil,
        params := none, body := some (.str "x"), timeout := 30 } := by
  refine ⟨?_, ?_, ?_⟩
  · have h := (c1_run_api_get_query_post_body (fun _ => Except.ok "") "get"
      (.str "http://u") .null (.str "x")
      (.cons "a" (.num "1") .nil)).1 (by decide)
    rw [h]
    decide
  · exact ((c1_run_api_get_query_post_body (fun _ => Except.ok "") "get"
      (.str "http://u") .null (.str "x")
      (.cons "a" (.num "1") .nil)).2.1 (by decide) (by decide)).1
  · have h := (c1_run_api_get_query_post_body (fun _ => Except.ok "") "get"
      (.str "http://u") .null (.str "x")
      (.cons "a" (.num "1") .nil)).2.2.1
    rw [h]
    decide

/-- C9 counterexample to the claim as stated: the issued request carries the
scalar `timeout=30`, which governs the connect phase (and the read phase); it
is not a 2-second connect timeout, and `run_api` accepts no timeout argument
for a caller to override. -/
theorem c9_counterexample :
    (buildRequest "GET" (.str DEFAULT_URL) .null .null).timeout = 30 ∧
    (buildRequest "GET" (.str DEFAULT_URL) .null .null).timeout ≠ 2 := by
  decide

/-- C9 (amended): every outbound call the Request Executor builds carries the
fixed scalar timeout of 30 seconds (applying to both the connect and the read
phase); there is no caller-overridable read timeout. -/
theorem c9_fixed_timeout (m : String) (u h p : JValue) :
    (buildRequest m u h p).timeout = 30 := by
  by_cases hm : pyUpper m = "GET" <;> simp [buildRequest, hm]

/-- C10: the Executor does not restrict the method: any method string is
passed through unchanged to the dispatch, a successful dispatch returns the
response text for any method, and every method not uppercasing to GET sends
the payload as a JSON body with no query parameters. -/
theorem c10_method_passthrough (m : String) (u h p : JValue) (t : String) :
    (buildRequest m u h p).method = m ∧
    run_api (fun _ => Except.ok t) (.str m) u h p = (t, true) ∧
    (pyUpper m ≠ "GET" →
      (buildRequest m u h p).params = none ∧
      (buildRequest m u h p).body = some p) := by
  refine ⟨?_, rfl, fun hm => ?_⟩
  · by_cases hm : pyUpper m = "GET" <;> simp [buildRequest, hm]
  · simp [buildRequest, hm]

/-- Witness for C10 at method `DELETE`. -/
theorem c10_witness :
    run_api (fun _ => Except.ok "resp") (.str "DELETE") (.str "http://u")
        .null (.str "x") = ("resp", true) ∧
    (buildRequest "DELETE" (.str "http://u") .null (.str "x")).body =
      some (.str "x") := by
  refine ⟨(c10_method_passthrough "DELETE" (.str "http://u") .null
    (.str "x") "resp").2.1, ?_⟩
  exact ((c10_method_passthrough "DELETE" (.str "http://u") .null
    (.str "x") "resp").2.2 (by decide)).2

/-! ### Orchestrator claims -/

theorem run_api_dispatched {http : IssuedRequest → Except String String}
    {mv u h p : JValue} (hd : (run_api http mv u h p).2 = true) :
    ∃ s, mv = JValue.str s := by
  cases mv with
  | str s => exact ⟨s, rfl⟩
  | null => simp [run_api] at hd
  | bool b => simp [run_api] at hd
  | num s => simp [run_api] at hd
  | arr xs => simp [run_api] at hd
  | obj kvs => simp [run_api] at hd

/-- C2: when the HTTP dispatch raises (modelled by an always-raising client),
`run_api` returns the error text `"Request failed: <cause>"` instead of
raising, and whenever the Orchestrator's run dispatched an HTTP call, its
outcome is an execution result whose raw response is that error text and whose
summary is the Summarizer applied to that very text — the run still completes
(the total function `orchestrate` returns an outcome; nothing escapes). -/
theorem c2_transport_failure_error_text (gw : String → String)
    (user e : String) (m : String) (u h p : JValue) :
    (run_api (fun _ => Except.error e) (.str m) u h p).1 =
      "Request failed: " ++ e ∧
    ((orchestrate gw (fun _ => Except.error e) user).httpCalled = true →
      ∃ d, (orchestrate gw (fun _ => Except.error e) user).outcome =
        .executed d ("Request failed: " ++ e)
          (describe_response gw ("Request failed: " ++ e))) := by
  constructor
  · rfl
  · intro hh
    unfold orchestrate at hh ⊢
    rcases hpq : prompt_to_api gw user with ⟨pr, g⟩
    rw [hpq] at hh
    cases pr with
    | text t => simp at hh
    | spec d =>
        dsimp only at hh ⊢
        obtain ⟨s, hs⟩ := run_api_dispatched hh
        rw [hs]
        exact ⟨d, rfl⟩

/-- Witness for C2: a fast-path input dispatches an HTTP call; with an
always-raising client the outcome carries the error text and its summary. -/
theorem c2_witness :
    (orchestrate (fun _ => "ok") (fun _ => Except.error "boom")
        "Payload: \x7b\"a\": 1\x7d").httpCalled = true ∧
    ∃ d, (orchestrate (fun _ => "ok") (fun _ => Except.error "boom")
        "Payload: \x7b\"a\": 1\x7d").outcome =
      .executed d ("Request failed: " ++ "boom")
        (describe_response (fun _ => "ok") ("Request failed: " ++ "boom")) := by
  refine ⟨by decide, ?_⟩
  exact (c2_transport_failure_error_text (fun _ => "ok")
    "Payload: \x7b\"a\": 1\x7d" "boom" "" .null .null .null).2 (by decide)

/-- C4: when the literal fast path declines and the classifier's stripped
output starts with the plain-answer marker, the outcome is the marker-stripped,
whitespace-trimmed answer and no HTTP call occurs. -/
theorem c4_plain_text_answer (gw : String → String)
    (http : IssuedRequest → Except String String) (user : String)
    (hfp : fastPath user = none)
    (hpm : strBegins plainMarker.data
      (pyStrip (gw (classifyPrompt user))).data = true) :
    (orchestrate gw http user).outcome =
      .answer (pyStrip (String.mk
        ((pyStrip (gw (classifyPrompt user))).data.drop
          plainMarker.length))) ∧
    (orchestrate gw http user).httpCalled = false := by
  unfold orchestrate prompt_to_api
  rw [hfp]
  simp [hpm]

/-- Witness for C4: classifier output `PLAIN_TEXT: hello` yields the answer
`hello` with no HTTP call. -/
theorem c4_witness :
    (orchestrate (fun _ => "PLAIN_TEXT: hello") (fun _ => Except.ok "")
        "hi").outcome = .answer "hello" ∧
    (orchestrate (fun _ => "PLAIN_TEXT: hello") (fun _ => Except.ok "")
        "hi").httpCalled = false := by
  have h := c4_plain_text_answer (fun _ => "PLAIN_TEXT: hello")
    (fun _ => Except.ok "") "hi" (by decide) (by decide)
  refine ⟨?_, h.2⟩
  rw [h.1]
  decide

/-- C5 (amended): when the literal fast path declines, the classifier's
stripped output does not start with the plain-answer marker, and no JSON block
can be extracted from it, the Orchestrator answers with the classifier text
stripped of surrounding whitespace (not byte-for-byte verbatim) and no HTTP
call occurs; the run completes with an answer rather than aborting. -/
theorem c5_unparsed_fallback (gw : String → String)
    (http : IssuedRequest → Except String String) (user : String)
    (hfp : fastPath user = none)
    (hpm : strBegins plainMarker.data
      (pyStrip (gw (classifyPrompt user))).data = false)
    (hex : _extract_json_block (pyStrip (gw (classifyPrompt user))) = none) :
    (orchestrate gw http user).outcome =
      .answer (pyStrip (gw (classifyPrompt user))) ∧
    (orchestrate gw http user).httpCalled = false := by
  unfold orchestrate prompt_to_api
  rw [hfp]
  simp [hpm, hex]

/-- C5 counterexample to the claim as stated: classifier output `" hello "`
(no marker, no parsable JSON) makes the Orchestrator answer `"hello"` — the
stripped text — not the raw classifier text `" hello "` verbatim. -/
theorem c5_counterexample :
    fastPath "hi" = none ∧
    strBegins plainMarker.data
      (pyStrip ((fun (_ : String) => " hello ") (classifyPrompt "hi"))).data =
      false ∧
    _extract_json_block
      (pyStrip ((fun (_ : String) => " hello ") (classifyPrompt "hi"))) =
      none ∧
    (orchestrate (fun _ => " hello ") (fun _ => Except.ok "") "hi").outcome =
      .answer "hello" ∧
    (orchestrate (fun _ => " hello ") (fun _ => Except.ok "") "hi").outcome ≠
      .answer ((fun (_ : String) => " hello ") (classifyPrompt "hi")) := by
  decide

/-- Witness for C5 (amended) at classifier output with no structured
content. -/
theorem c5_witness :
    (orchestrate (fun _ => "no structure here") (fun _ => Except.ok "")
        "hi").outcome = .answer "no structure here" ∧
    (orchestrate (fun _ => "no structure here") (fun _ => Except.ok "")
        "hi").httpCalled = false := by
  have h := c5_unparsed_fallback (fun _ => "no structure here")
    (fun _ => Except.ok "") "hi" (by decide) (by decide) (by decide)
  refine ⟨?_, h.2⟩
  rw [h.1]
  decide

/-- C3 counterexample to the claim as stated: `Payload: {"a": 1}}` contains
the payload marker followed by the syntactically valid JSON object
`{"a": 1}`, yet `prompt_to_api` does not build the literal request — the
greedy capture runs to the last brace of the text (`{"a": 1}}`), fails to
parse, and the pipeline falls through to the gateway, which IS invoked. -/
theorem c3_counterexample :
    specLiteralPresent "Payload: \x7b\"a\": 1\x7d\x7d" = true ∧
    (prompt_to_api (fun _ => "hello.") "Payload: \x7b\"a\": 1\x7d\x7d").2 =
      true ∧
    (prompt_to_api (fun _ => "hello.") "Payload: \x7b\"a\": 1\x7d\x7d").1 =
      .text "hello." := by
  decide

/-- C3 (amended): for every user text whose fast-path capture (the span from
the first `\x7b` after the payload marker to the last `\x7d` of the text)
parses as JSON, `prompt_to_api` returns the literal RequestSpec — method POST,
Content-Type header, the exact parsed payload, and the URL-marker token when
present else the fallback target — without invoking the gateway. -/
theorem c3_fast_path_literal_spec (gw : String → String) (user : String)
    (cap : List Char) (pv : JValue)
    (hcap : paySearch user.data = some cap)
    (hjson : json_loads (String.mk cap) = some pv) :
    prompt_to_api gw user =
      (.spec (.cons "method" (.str "POST")
        (.cons "url" (.str (match urlSearch user.data with
            | some tok => String.mk tok
            | none => DEFAULT_URL))
          (.cons "headers" ctHeaderDefault
            (.cons "payload" pv .nil)))), false) := by
  unfold prompt_to_api fastPath
  rw [hcap]
  dsimp only
  rw [hjson]

/-- Witness for C3 (amended) on a literal with both markers. -/
theorem c3_witness :
    prompt_to_api (fun _ => "unused")
        "URL: http://h/x Payload: \x7b\"a\": 1\x7d" =
      (.spec (.cons "method" (.str "POST")
        (.cons "url" (.str "http://h/x")
          (.cons "headers" ctHeaderDefault
            (.cons "payload" (.obj (.cons "a" (.num "1") .nil)) .nil)))),
        false) := by
  have h := c3_fast_path_literal_spec (fun _ => "unused")
    "URL: http://h/x Payload: \x7b\"a\": 1\x7d"
    ("\x7b\"a\": 1\x7d".data) (.obj (.cons "a" (.num "1") .nil))
    (by decide) (by decide)
  rw [h]
  decide

/-- C7: the Response Block Parser takes exactly the span from the first
opening brace to the last closing brace of the text (when such a span exists)
and returns the result of JSON-parsing exactly that span — the parsed object
on success, no structured content on parse failure or when no span exists; it
is a total function, so it never raises. -/
theorem c7_extract_json_block_span (text : String) :
    _extract_json_block text =
      (match specBraceSpan text.data with
       | some span => json_loads (String.mk span)
       | none => none) := by
  unfold _extract_json_block
  rw [braceSearch_eq_specBraceSpan]

theorem parseJMembers_obj (fuel : Nat) :
    ∀ (cs : List Char) (acc : PyDict) (v : JValue) (r : List Char),
      parseJMembers fuel cs acc = some (v, r) → ∃ kvs, v = JValue.obj kvs := by
  induction fuel with
  | zero =>
      intro cs acc v r h
      simp [parseJMembers] at h
  | succ n ih =>
      intro cs acc v r h
      unfold parseJMembers at h
      repeat' split at h
      all_goals
        first
        | exact ih _ _ _ _ h
        | (cases h; exact ⟨_, rfl⟩)
        | simp at h

/-- One-step reduction of the value parser on an opening brace. -/
theorem parseJValue_brace_step (fuel : Nat) (r : List Char) :
    parseJValue (fuel + 1) ('{' :: r) =
      (match skipJWs r with
       | '}' :: rest' => some (JValue.obj JMembers.nil, rest')
       | body => parseJMembers fuel body JMembers.nil) := rfl

theorem parseJValue_open_obj (fuel : Nat) (r : List Char) (v : JValue)
    (rest : List Char)
    (h : parseJValue (fuel + 1) ('{' :: r) = some (v, rest)) :
    ∃ kvs, v = JValue.obj kvs := by
  rw [parseJValue_brace_step] at h
  split at h
  · cases h
    exact ⟨_, rfl⟩
  · exact parseJMembers_obj fuel _ _ _ _ h

theorem braceCapAt_head {cs cap : List Char} (h : braceCapAt cs = some cap) :
    ∃ r, cap = '{' :: r := by
  cases cs with
  | nil => simp [braceCapAt] at h
  | cons c rest =>
      simp only [braceCapAt] at h
      by_cases hc : c = '{'
      · rw [if_pos hc] at h
        rcases hl : lastCloseIdx rest with _ | k
        · rw [hl] at h
          cases h
        · rw [hl] at h
          cases h
          exact ⟨_, rfl⟩
      · rw [if_neg hc] at h
        cases h

theorem braceSearch_head {cs cap : List Char}
    (h : braceSearch cs = some cap) : ∃ r, cap = '{' :: r := by
  induction cs with
  | nil => simp [braceSearch] at h
  | cons c rest ih =>
      simp only [braceSearch] at h
      rcases hb : braceCapAt (c :: rest) with _ | cap2
      · rw [hb] at h
        exact ih h
      · rw [hb] at h
        cases h
        exact braceCapAt_head hb

theorem json_loads_open_obj {r : List Char} {v : JValue}
    (h : json_loads (String.mk ('{' :: r)) = some v) :
    ∃ kvs, v = JValue.obj kvs := by
  have hws : isJWs '{' = false := by decide
  have hskip : skipJWs ('{' :: r) = '{' :: r := by
    simp [skipJWs, List.dropWhile_cons, hws]
  unfold json_loads at h
  dsimp only at h
  rw [hskip] at h
  rcases hp : parseJValue ((String.mk ('{' :: r)).length + 1) ('{' :: r)
    with _ | ⟨v', rest⟩
  · rw [hp] at h
    cases h
  · rw [hp] at h
    dsimp only at h
    obtain ⟨kvs, rfl⟩ := parseJValue_open_obj _ _ _ _ hp
    by_cases hrest : skipJWs rest = []
    · rw [if_pos hrest] at h
      cases h
      exact ⟨kvs, rfl⟩
    · rw [if_neg hrest] at h
      cases h

/-- Any value `_extract_json_block` yields is a JSON object: the captured
span starts with an opening brace. -/
theorem extract_json_block_obj {text : String} {v : JValue}
    (h : _extract_json_block text = some v) : ∃ kvs, v = JValue.obj kvs := by
  unfold _extract_json_block at h
  rcases hb : braceSearch text.data with _ | cap
  · rw [hb] at h
    cases h
  · rw [hb] at h
    obtain ⟨r, rfl⟩ := braceSearch_head hb
    exact json_loads_open_obj h
